import Mathlib

/-!
Shallow embedding of the FocusTools backend (src/server/server.js):
an Express/Mongoose CRUD server for Task and Session documents.

JavaScript request-body values are modelled by `JSVal` (absent fields are
`JSVal.undef`, so `x !== undefined` is `x != JSVal.undef` and JS truthiness
is `truthy`).  The document store is a `Store` holding the task and session
collections as association lists keyed by identifier strings; identifier
assignment on insert is passed in as the `newId` argument.  The Mongoose
model files (`./models/Task`, `./models/Session`) are required by
server.js but are not part of the sources, so the outcome of a `save()`
call — success, a Mongoose `ValidationError`, or any other store error —
is passed to the creation handlers as an explicit `Except JsError Unit`
argument; the catch blocks of server.js are modelled by `catchErr`.
Each route handler is a pure function from its inputs and the store to a
`Resp` (HTTP status plus JSON body shape) and the resulting store.
-/

/-- A JavaScript value as it occurs in a JSON request body.  A missing
field is represented by `undef`, matching destructuring of `req.body`. -/
inductive JSVal where
  | undef : JSVal
  | nullV : JSVal
  | boolV : Bool → JSVal
  | numV : Int → JSVal
  | strV : String → JSVal
deriving DecidableEq, Repr

/-- JavaScript truthiness: `undefined`, `null`, `false`, `0` and `""` are
falsy, everything else modelled here is truthy. -/
def truthy : JSVal → Bool
  | .undef => false
  | .nullV => false
  | .boolV b => b
  | .numV n => n != 0
  | .strV s => s != ""

/-- JavaScript `a || b`: returns `a` when `a` is truthy, else `b`. -/
def jsOr (a b : JSVal) : JSVal := if truthy a then a else b

/-- Strip leading and trailing whitespace characters from a character
list: the semantics of JavaScript `String.prototype.trim` on the ASCII
strings the server handles. -/
def trimChars (l : List Char) : List Char :=
  ((l.dropWhile Char.isWhitespace).reverse.dropWhile Char.isWhitespace).reverse

/-- JavaScript `s.trim()` on a string. -/
def jsTrimStr (s : String) : String := String.mk (trimChars s.data)

/-- JavaScript `v.trim()` on an arbitrary value: only strings have a
`trim` method; on any other value the call throws a `TypeError`,
modelled by `none`. -/
def jsTrim : JSVal → Option String
  | .strV s => some (jsTrimStr s)
  | _ => none

/-- A string is empty or consists only of whitespace. -/
def wsOnly (s : String) : Bool := s.data.all Char.isWhitespace

/-- Hexadecimal digit. -/
def isHexChar (c : Char) : Bool :=
  c.isDigit || ('a' ≤ c && c ≤ 'f') || ('A' ≤ c && c ≤ 'F')

/-- `mongoose.Types.ObjectId.isValid` on a string: a 24-character
hexadecimal token, or any 12-character string (interpreted as 12 raw
bytes). -/
def isValidObjectId (s : String) : Bool :=
  s.length == 12 || (s.length == 24 && s.data.all isHexChar)

/-- `mongoose.Types.ObjectId.isValid` on an arbitrary request-body value:
strings are checked syntactically, numbers are accepted, other values are
rejected. -/
def jsIsValidId : JSVal → Bool
  | .strV s => isValidObjectId s
  | .numV _ => true
  | _ => false

/-- A stored Task document.  `title` is always a string by the time it is
stored; `completed` is stored as whatever value the handler supplied. -/
structure TaskDoc where
  title : String
  completed : JSVal
deriving DecidableEq, Repr

/-- A stored Session document. -/
structure SessionDoc where
  taskId : JSVal
  duration : JSVal
  startTime : JSVal
  completed : JSVal
deriving DecidableEq, Repr

/-- The document store: the task and session collections, as association
lists from identifier strings to documents. -/
structure Store where
  tasks : List (String × TaskDoc)
  sessions : List (String × SessionDoc)
deriving DecidableEq, Repr

/-- The empty store. -/
def emptyStore : Store := ⟨[], []⟩

/-- A JavaScript error object as seen by a catch block: its `name`
(`"ValidationError"`, `"TypeError"`, ...) and its `message`. -/
structure JsError where
  name : String
  message : String
deriving DecidableEq, Repr

/-- The request body of the Task routes: the `title` and `completed`
fields read from `req.body` (`undef` when absent). -/
structure TaskBody where
  title : JSVal
  completed : JSVal
deriving DecidableEq, Repr

/-- The request body of `POST /api/sessions`. -/
structure SessionBody where
  taskId : JSVal
  duration : JSVal
  startTime : JSVal
  completed : JSVal
deriving DecidableEq, Repr

/-- The JSON body of a response: an error object, a single Task, the
delete acknowledgement (message plus deleted Task under the `task` key),
or a single Session. -/
inductive RespBody where
  | errB : String → String → RespBody
  | taskB : TaskDoc → RespBody
  | deletedB : String → TaskDoc → RespBody
  | sessionB : SessionDoc → RespBody
deriving DecidableEq, Repr

/-- An HTTP response: status code and JSON body. -/
structure Resp where
  status : Nat
  body : RespBody
deriving DecidableEq, Repr

/-- The error category of a response, when its body is an error object. -/
def Resp.errCategory : Resp → Option String
  | ⟨_, .errB c _⟩ => some c
  | _ => none

/-- `Task.findById`: first task stored under the given identifier. -/
def findTask (st : Store) (id : String) : Option TaskDoc :=
  (st.tasks.find? (fun p => p.1 == id)).map Prod.snd

/-- `Task.findByIdAndDelete`: remove the task stored under the given
identifier. -/
def removeTask (st : Store) (id : String) : Store :=
  { st with tasks := st.tasks.filter (fun p => p.1 != id) }

/-- Store-side effect of `Task.findByIdAndUpdate`: replace the document
under the given identifier. -/
def replaceTask (st : Store) (id : String) (t : TaskDoc) : Store :=
  { st with tasks := st.tasks.map (fun p => if p.1 == id then (p.1, t) else p) }

/-- Insert a new task document under a fresh store-assigned identifier. -/
def insertTask (st : Store) (id : String) (t : TaskDoc) : Store :=
  { st with tasks := st.tasks ++ [(id, t)] }

/-- Insert a new session document under a fresh store-assigned
identifier. -/
def insertSession (st : Store) (id : String) (s : SessionDoc) : Store :=
  { st with sessions := st.sessions ++ [(id, s)] }

/-- `Task.findById` applied to a request-body value: only a string can
match a stored identifier. -/
def jsFindTask (st : Store) (v : JSVal) : Option TaskDoc :=
  match v with
  | .strV s => findTask st s
  | _ => none

/-- The catch block shared by the POST and PUT handlers of server.js:
a Mongoose `ValidationError` becomes 400 with category
`"Validation error"`; any other error becomes 500 with category
`"Server error"`; the error message is passed through. -/
def catchErr (e : JsError) : Resp :=
  if e.name == "ValidationError" then ⟨400, .errB "Validation error" e.message⟩
  else ⟨500, .errB "Server error" e.message⟩

/-- The `TypeError` thrown by calling `.trim()` on a non-string value. -/
def trimTypeErr : JsError := ⟨"TypeError", "title.trim is not a function"⟩

/-- `POST /api/tasks` (server.js lines 35-73).  `sv` is the outcome of
`newTask.save()` reported by the store. -/
def createTask (body : TaskBody) (newId : String) (sv : Except JsError Unit)
    (st : Store) : Resp × Store :=
  if !truthy body.title then
    (⟨400, .errB "Validation error" "Title is required"⟩, st)
  else
    match jsTrim body.title with
    | none => (catchErr trimTypeErr, st)
    | some tr =>
      if tr == "" then
        (⟨400, .errB "Validation error" "Title is required"⟩, st)
      else
        let doc : TaskDoc := ⟨tr, jsOr body.completed (.boolV false)⟩
        match sv with
        | .ok _ => (⟨201, .taskB doc⟩, insertTask st newId doc)
        | .error e => (catchErr e, st)

/-- `GET /api/tasks/:id` (server.js lines 93-125). -/
def getTask (id : String) (st : Store) : Resp :=
  if !isValidObjectId id then
    ⟨404, .errB "Task not found" "Invalid task ID format"⟩
  else
    match findTask st id with
    | none => ⟨404, .errB "Task not found" ("Task with ID " ++ id ++ " not found")⟩
    | some t => ⟨200, .taskB t⟩

/-- Apply a partial update document to a stored task: a field absent from
the update (`undef`) is left untouched; `title` is only ever applied as a
string (non-string present titles throw in the handler before the store
is reached). -/
def applyUpdates (body : TaskBody) (t : TaskDoc) : TaskDoc :=
  { title := match body.title with | .strV s => s | _ => t.title,
    completed := if body.completed == .undef then t.completed else body.completed }

/-- `Task.findByIdAndUpdate(id, updates, new:true)`: look up the task,
apply the partial update, return the updated document. -/
def findByIdAndUpdate (id : String) (body : TaskBody) (st : Store) : Resp × Store :=
  match findTask st id with
  | none => (⟨404, .errB "Task not found" "Task not found"⟩, st)
  | some t =>
    let t2 := applyUpdates body t
    (⟨200, .taskB t2⟩, replaceTask st id t2)

/-- `PUT /api/tasks/:id` (server.js lines 129-185). -/
def updateTask (id : String) (body : TaskBody) (st : Store) : Resp × Store :=
  if !isValidObjectId id then
    (⟨404, .errB "Task not found" "Invalid task ID format"⟩, st)
  else if body.title == .undef then
    findByIdAndUpdate id body st
  else
    match jsTrim body.title with
    | none => (catchErr trimTypeErr, st)
    | some tr =>
      if tr == "" then
        (⟨400, .errB "Validation error" "Title cannot be empty"⟩, st)
      else
        findByIdAndUpdate id body st

/-- `DELETE /api/tasks/:id` (server.js lines 188-223). -/
def deleteTask (id : String) (st : Store) : Resp × Store :=
  if !isValidObjectId id then
    (⟨404, .errB "Task not found" "Invalid task ID format"⟩, st)
  else
    match findTask st id with
    | none => (⟨404, .errB "Task not found" "Task not found"⟩, st)
    | some t => (⟨200, .deletedB "Task deleted successfully" t⟩, removeTask st id)

/-- String interpolation of a request-body value, as in the template
literal of the session handler's error message. -/
def jsShow : JSVal → String
  | .undef => "undefined"
  | .nullV => "null"
  | .boolV b => if b then "true" else "false"
  | .numV n => toString n
  | .strV s => s

/-- `POST /api/sessions` (server.js lines 235-307).  `sv` is the outcome
of `newSession.save()` reported by the store. -/
def createSession (body : SessionBody) (newId : String)
    (sv : Except JsError Unit) (st : Store) : Resp × Store :=
  if !truthy body.taskId then
    (⟨400, .errB "Validation error" "Task ID is required"⟩, st)
  else if !truthy body.duration then
    (⟨400, .errB "Validation error" "Duration is required"⟩, st)
  else if !truthy body.startTime then
    (⟨400, .errB "Validation error" "Start time is required"⟩, st)
  else if !jsIsValidId body.taskId then
    (⟨400, .errB "Validation error" "Invalid task ID format"⟩, st)
  else
    match jsFindTask st body.taskId with
    | none =>
      (⟨400, .errB "Validation error"
          ("Task with ID " ++ jsShow body.taskId ++ " does not exist")⟩, st)
    | some _ =>
      let doc : SessionDoc := ⟨body.taskId, body.duration, body.startTime,
        if body.completed == .undef then .boolV true else body.completed⟩
      match sv with
      | .ok _ => (⟨201, .sessionB doc⟩, insertSession st newId doc)
      | .error e => (catchErr e, st)

/-- A Task-collection write operation: a creation request or an update
request, with the store-assigned identifier and the store's save outcome
for creations. -/
inductive TaskOp where
  | createOp : TaskBody → String → Except JsError Unit → TaskOp
  | updateOp : String → TaskBody → TaskOp

/-- Run one Task write operation against the store. -/
def stepOp (st : Store) (op : TaskOp) : Store :=
  match op with
  | .createOp b i sv => (createTask b i sv st).2
  | .updateOp i b => (updateTask i b st).2

/-- Run a sequence of Task write operations starting from the empty
store. -/
def runOps (ops : List TaskOp) : Store := ops.foldl stepOp emptyStore

/-- If what remains after `dropWhile p` still satisfies `p` everywhere, it
must be empty (the first remaining element would falsify `p`). -/
theorem dropWhile_all_eq_nil {α : Type} (p : α → Bool) (l : List α) :
    (l.dropWhile p).all p = true → l.dropWhile p = [] := by
  induction l with
  | nil => intro _; rfl
  | cons a t ih =>
    intro h
    rw [List.dropWhile_cons] at h ⊢
    by_cases hp : p a = true
    · rw [if_pos hp] at h ⊢
      exact ih h
    · rw [if_neg hp] at h
      rw [List.all_cons] at h
      exact absurd (Bool.and_eq_true_iff.mp h).1 hp

/-- `dropWhile p` empties a list all of whose elements satisfy `p`. -/
theorem all_dropWhile_eq_nil {α : Type} (p : α → Bool) (l : List α) :
    l.all p = true → l.dropWhile p = [] := by
  induction l with
  | nil => intro _; rfl
  | cons a t ih =>
    intro h
    rw [List.all_cons] at h
    obtain ⟨h1, h2⟩ := Bool.and_eq_true_iff.mp h
    rw [List.dropWhile_cons, if_pos h1]
    exact ih h2

/-- Trimming an empty-or-whitespace-only string yields the empty string. -/
theorem jsTrimStr_eq_empty_of_wsOnly (s : String) (h : wsOnly s = true) :
    jsTrimStr s = "" := by
  unfold wsOnly at h
  unfold jsTrimStr trimChars
  rw [all_dropWhile_eq_nil _ _ h]
  rfl

/-- If a string trims to something non-empty, the trimmed string is not
empty-or-whitespace-only. -/
theorem wsOnly_jsTrimStr_false (s : String) (h : jsTrimStr s ≠ "") :
    wsOnly (jsTrimStr s) = false := by
  by_contra hws
  apply h
  rw [Bool.not_eq_false] at hws
  unfold wsOnly jsTrimStr trimChars at hws
  rw [List.all_reverse] at hws
  unfold jsTrimStr trimChars
  rw [dropWhile_all_eq_nil _ _ hws]
  rfl

/-- If a string trims to something non-empty, the string itself is not
empty-or-whitespace-only. -/
theorem wsOnly_false_of_jsTrimStr_ne (s : String) (h : jsTrimStr s ≠ "") :
    wsOnly s = false := by
  by_contra hws
  rw [Bool.not_eq_false] at hws
  exact h (jsTrimStr_eq_empty_of_wsOnly s hws)

/-- The invariant of the task collection: no stored title is empty or
whitespace-only. -/
def titlesOk (st : Store) : Prop :=
  ∀ p ∈ st.tasks, wsOnly p.2.title = false

/-- Task creation preserves the title invariant: the only branch that
writes inserts a trimmed, non-blank title. -/
theorem createTask_titlesOk (b : TaskBody) (i : String) (sv : Except JsError Unit)
    (st : Store) (h : titlesOk st) : titlesOk (createTask b i sv st).2 := by
  unfold createTask
  split
  · exact h
  · split
    · exact h
    · next tr heq =>
      split
      · exact h
      · next hne =>
        split
        · intro p hp
          rcases List.mem_append.mp hp with hl | hr
          · exact h p hl
          · have hp2 : p.2 = TaskDoc.mk tr (jsOr b.completed (.boolV false)) := by
              rcases List.mem_singleton.mp hr with rfl
              rfl
            rw [hp2]
            cases hb : b.title with
            | strV s =>
              rw [hb] at heq
              have htr : tr = jsTrimStr s := by
                simp [jsTrim] at heq
                exact heq.symm
              subst htr
              exact wsOnly_jsTrimStr_false s (by simpa using hne)
            | undef => rw [hb] at heq; simp [jsTrim] at heq
            | nullV => rw [hb] at heq; simp [jsTrim] at heq
            | boolV bb => rw [hb] at heq; simp [jsTrim] at heq
            | numV n => rw [hb] at heq; simp [jsTrim] at heq
        · exact h

/-- `findByIdAndUpdate` preserves the title invariant whenever the update
document itself cannot introduce a blank title. -/
theorem findByIdAndUpdate_titlesOk (i : String) (b : TaskBody) (st : Store)
    (h : titlesOk st)
    (hb : ∀ t : TaskDoc, wsOnly t.title = false →
        wsOnly (applyUpdates b t).title = false) :
    titlesOk (findByIdAndUpdate i b st).2 := by
  unfold findByIdAndUpdate
  split
  · exact h
  · next t heq =>
    intro p hp
    unfold replaceTask at hp
    simp only [List.mem_map] at hp
    obtain ⟨q, hq, hfq⟩ := hp
    have ht : wsOnly t.title = false := by
      unfold findTask at heq
      obtain ⟨pair, hpair, hsnd⟩ := Option.map_eq_some'.mp heq
      have hmem := List.mem_of_find?_eq_some hpair
      have := h pair hmem
      rw [hsnd] at this
      exact this
    by_cases hqi : (q.1 == i) = true
    · rw [if_pos hqi] at hfq
      rw [← hfq]
      exact hb t ht
    · rw [if_neg hqi] at hfq
      rw [← hfq]
      exact h q hq

/-- Task update preserves the title invariant: a present title is written
only after the blank check, and an absent title leaves the stored one. -/
theorem updateTask_titlesOk (i : String) (b : TaskBody) (st : Store)
    (h : titlesOk st) : titlesOk (updateTask i b st).2 := by
  unfold updateTask
  split
  · exact h
  · split
    · next hund =>
      apply findByIdAndUpdate_titlesOk _ _ _ h
      intro t ht
      have : b.title = JSVal.undef := by simpa using hund
      simp [applyUpdates, this]
      exact ht
    · split
      · exact h
      · next tr heq =>
        split
        · exact h
        · next hne =>
          apply findByIdAndUpdate_titlesOk _ _ _ h
          intro t ht
          cases hb : b.title with
          | strV s =>
            have htr : tr = jsTrimStr s := by
              rw [hb] at heq
              simp [jsTrim] at heq
              exact heq.symm
            simp [applyUpdates, hb]
            apply wsOnly_false_of_jsTrimStr_ne
            rw [← htr]
            simpa using hne
          | undef => rw [hb] at heq; simp [jsTrim] at heq
          | nullV => rw [hb] at heq; simp [jsTrim] at heq
          | boolV bb => rw [hb] at heq; simp [jsTrim] at heq
          | numV n => rw [hb] at heq; simp [jsTrim] at heq

/-- Folding any sequence of task write operations preserves the title
invariant. -/
theorem foldl_stepOp_titlesOk (ops : List TaskOp) :
    ∀ st : Store, titlesOk st → titlesOk (ops.foldl stepOp st) := by
  induction ops with
  | nil => intro st h; exact h
  | cons op rest ih =>
    intro st h
    rw [List.foldl_cons]
    apply ih
    cases op with
    | createOp b i sv => exact createTask_titlesOk b i sv st h
    | updateOp i b => exact updateTask_titlesOk i b st h

/-- A well-formed 24-character hexadecimal identifier used in concrete
instances. -/
def exTaskId : String := "aaaaaaaaaaaaaaaaaaaaaaaa"

/-- A concrete stored task. -/
def exTask : TaskDoc := ⟨"Write spec", .boolV false⟩

/-- A store holding one task under `exTaskId`. -/
def exStore : Store := ⟨[(exTaskId, exTask)], []⟩

/-- Claim C2: over every sequence of Create Task and Update Task
operations started from the empty store, no stored task title is ever
empty or whitespace-only; creation of a blank-after-trim title is
rejected with 400 and a successful creation stores the trimmed title;
an update that provides a blank-after-trim title is rejected with 400
before any write. -/
theorem claim_C2_title_invariant :
    (∀ ops : List TaskOp, ∀ p ∈ (runOps ops).tasks,
        p.2.title ≠ "" ∧ wsOnly p.2.title = false) ∧
    (∀ (s : String) (c : JSVal) (i : String) (sv : Except JsError Unit) (st : Store),
        jsTrimStr s = "" →
        createTask ⟨.strV s, c⟩ i sv st
          = (⟨400, .errB "Validation error" "Title is required"⟩, st)) ∧
    (∀ (s : String) (c : JSVal) (i : String) (st : Store),
        jsTrimStr s ≠ "" →
        (createTask ⟨.strV s, c⟩ i (.ok ()) st).2
          = insertTask st i ⟨jsTrimStr s, jsOr c (.boolV false)⟩) ∧
    (∀ (i s : String) (c : JSVal) (st : Store),
        isValidObjectId i = true → jsTrimStr s = "" →
        updateTask i ⟨.strV s, c⟩ st
          = (⟨400, .errB "Validation error" "Title cannot be empty"⟩, st)) := by
  refine ⟨?_, ?_, ?_, ?_⟩
  · intro ops p hp
    have hws := foldl_stepOp_titlesOk ops emptyStore (by intro q hq; cases hq) p hp
    refine ⟨?_, hws⟩
    intro he
    rw [he] at hws
    simp [wsOnly] at hws
  · intro s c i sv st h
    by_cases hs : s = ""
    · subst hs
      rfl
    · unfold createTask
      simp [truthy, hs, jsTrim, h]
  · intro s c i st h
    have hs : s ≠ "" := by
      intro he
      rw [he] at h
      exact h rfl
    unfold createTask
    simp [truthy, hs, jsTrim, h]
  · intro i s c st hv h
    unfold updateTask
    simp [hv, jsTrim, h]

/-- Concrete instance of claim C2: a create with title `"  hi  "` stores
title `"hi"`, which is neither empty nor whitespace-only, and an update
providing title `"   "` on the example store is rejected with 400 leaving
the store unchanged. -/
theorem claim_C2_witness :
    (("t1", TaskDoc.mk "hi" (JSVal.boolV false)).2.title ≠ "" ∧
       wsOnly ("t1", TaskDoc.mk "hi" (JSVal.boolV false)).2.title = false) ∧
    updateTask exTaskId ⟨.strV "   ", .undef⟩ exStore
      = (⟨400, .errB "Validation error" "Title cannot be empty"⟩, exStore) :=
  ⟨claim_C2_title_invariant.1
      [TaskOp.createOp ⟨.strV "  hi  ", .undef⟩ "t1" (.ok ())]
      ("t1", TaskDoc.mk "hi" (JSVal.boolV false)) (by decide),
   claim_C2_title_invariant.2.2.2 exTaskId "   " JSVal.undef exStore
      (by decide) (by decide)⟩

/-- Claim C3: for an existing task, an update whose body provides
`title` equal to the empty string returns 400 with category
`"Validation error"`, the store is unchanged, and the task stored under
that id is exactly what it was before. -/
theorem claim_C3_update_empty_title (i : String) (st : Store) (t : TaskDoc)
    (c : JSVal) (hv : isValidObjectId i = true) (ht : findTask st i = some t) :
    updateTask i ⟨.strV "", c⟩ st
      = (⟨400, .errB "Validation error" "Title cannot be empty"⟩, st) ∧
    findTask (updateTask i ⟨.strV "", c⟩ st).2 i = some t := by
  have h400 : updateTask i ⟨JSVal.strV "", c⟩ st
      = (⟨400, .errB "Validation error" "Title cannot be empty"⟩, st) := by
    unfold updateTask
    rw [if_neg (by simp [hv])]
    rfl
  exact ⟨h400, by rw [h400]; exact ht⟩

/-- Concrete instance of claim C3 on the example store. -/
theorem claim_C3_witness :
    updateTask exTaskId ⟨.strV "", .undef⟩ exStore
      = (⟨400, .errB "Validation error" "Title cannot be empty"⟩, exStore) ∧
    findTask (updateTask exTaskId ⟨.strV "", .undef⟩ exStore).2 exTaskId
      = some exTask :=
  claim_C3_update_empty_title exTaskId exStore exTask JSVal.undef
    (by decide) (by decide)

/-- Claim C4: updating an existing task with body `completed: true` and
no `title` returns 200 with `completed` set and `title` unchanged; in
general `applyUpdates` leaves any field that is absent from the body
untouched. -/
theorem claim_C4_partial_update (i : String) (st : Store) (t : TaskDoc)
    (hv : isValidObjectId i = true) (ht : findTask st i = some t) :
    updateTask i ⟨.undef, .boolV true⟩ st
      = (⟨200, .taskB ⟨t.title, .boolV true⟩⟩,
         replaceTask st i ⟨t.title, .boolV true⟩) ∧
    (∀ b : TaskBody, b.title = .undef →
        (updateTask i b st).1 = ⟨200, .taskB (applyUpdates b t)⟩) ∧
    (∀ (b : TaskBody) (t2 : TaskDoc), b.title = .undef →
        (applyUpdates b t2).title = t2.title) ∧
    (∀ (b : TaskBody) (t2 : TaskDoc), b.completed = .undef →
        (applyUpdates b t2).completed = t2.completed) := by
  refine ⟨?_, ?_, ?_, ?_⟩
  · unfold updateTask
    rw [if_neg (by simp [hv])]
    unfold findByIdAndUpdate
    rw [ht]
    rfl
  · intro b hb
    unfold updateTask
    rw [hb, if_neg (by simp [hv])]
    unfold findByIdAndUpdate
    rw [ht]
    simp [applyUpdates, hb]
  · intro b t2 hb
    simp [applyUpdates, hb]
  · intro b t2 hb
    simp [applyUpdates, hb]

/-- Concrete instance of claim C4 on the example store. -/
theorem claim_C4_witness :
    updateTask exTaskId ⟨.undef, .boolV true⟩ exStore
      = (⟨200, .taskB ⟨exTask.title, .boolV true⟩⟩,
         replaceTask exStore exTaskId ⟨exTask.title, .boolV true⟩) ∧
    (applyUpdates ⟨.undef, .boolV true⟩ exTask).title = exTask.title :=
  ⟨(claim_C4_partial_update exTaskId exStore exTask (by decide) (by decide)).1,
   (claim_C4_partial_update exTaskId exStore exTask (by decide) (by decide)).2.2.1
      ⟨JSVal.undef, JSVal.boolV true⟩ exTask rfl⟩

/-- Claim C5: creating a task whose title is a string that is non-blank
after trimming, with `completed` omitted, returns 201 with the trimmed
title and `completed` defaulted to `false`, and stores that document. -/
theorem claim_C5_create_defaults (s i : String) (st : Store)
    (h : jsTrimStr s ≠ "") :
    createTask ⟨.strV s, .undef⟩ i (.ok ()) st
      = (⟨201, .taskB ⟨jsTrimStr s, .boolV false⟩⟩,
         insertTask st i ⟨jsTrimStr s, .boolV false⟩) := by
  have hs : s ≠ "" := by intro he; rw [he] at h; exact h rfl
  unfold createTask
  rw [if_neg (by simp [truthy, hs])]
  simp only [jsTrim]
  rw [if_neg (by simpa using h)]
  rfl

/-- Concrete instance of claim C5. -/
theorem claim_C5_witness :
    createTask ⟨.strV "  Write spec  ", .undef⟩ "t1" (.ok ()) emptyStore
      = (⟨201, .taskB ⟨"Write spec", .boolV false⟩⟩,
         insertTask emptyStore "t1" ⟨"Write spec", .boolV false⟩) := by
  have h := claim_C5_create_defaults "  Write spec  " "t1" emptyStore (by decide)
  have he : jsTrimStr "  Write spec  " = "Write spec" := by decide
  rw [he] at h
  exact h

/-- Claim C6: getting a task with a syntactically invalid identifier
returns 404 (not-found, not a parse error); a well-formed identifier with
no stored task returns 404; an existing identifier returns 200 with the
stored task. -/
theorem claim_C6_get_task (st : Store) (i : String) (t : TaskDoc) :
    (isValidObjectId i = false →
        getTask i st = ⟨404, .errB "Task not found" "Invalid task ID format"⟩) ∧
    (isValidObjectId i = true → findTask st i = none →
        getTask i st
          = ⟨404, .errB "Task not found" ("Task with ID " ++ i ++ " not found")⟩) ∧
    (isValidObjectId i = true → findTask st i = some t →
        getTask i st = ⟨200, .taskB t⟩) := by
  refine ⟨?_, ?_, ?_⟩
  · intro h
    unfold getTask
    rw [if_pos (by simp [h])]
  · intro hv hn
    unfold getTask
    rw [if_neg (by simp [hv]), hn]
  · intro hv hs
    unfold getTask
    rw [if_neg (by simp [hv]), hs]

/-- Concrete instances of claim C6: malformed id, absent id, existing
id. -/
theorem claim_C6_witness :
    getTask "zzz" exStore
      = ⟨404, .errB "Task not found" "Invalid task ID format"⟩ ∧
    getTask "bbbbbbbbbbbbbbbbbbbbbbbb" exStore
      = ⟨404, .errB "Task not found"
          ("Task with ID " ++ "bbbbbbbbbbbbbbbbbbbbbbbb" ++ " not found")⟩ ∧
    getTask exTaskId exStore = ⟨200, .taskB exTask⟩ :=
  ⟨(claim_C6_get_task exStore "zzz" exTask).1 (by decide),
   (claim_C6_get_task exStore "bbbbbbbbbbbbbbbbbbbbbbbb" exTask).2.1
      (by decide) (by decide),
   (claim_C6_get_task exStore exTaskId exTask).2.2 (by decide) (by decide)⟩

/-- Claim C7: deleting an existing task returns 200 with the success
message and the deleted task embedded, removes it from the store, and a
second delete of the same identifier returns 404. -/
theorem claim_C7_delete_twice (st : Store) (i : String) (t : TaskDoc)
    (hv : isValidObjectId i = true) (ht : findTask st i = some t) :
    deleteTask i st
      = (⟨200, .deletedB "Task deleted successfully" t⟩, removeTask st i) ∧
    findTask (removeTask st i) i = none ∧
    deleteTask i (removeTask st i)
      = (⟨404, .errB "Task not found" "Task not found"⟩, removeTask st i) := by
  have hnone : findTask (removeTask st i) i = none := by
    unfold findTask removeTask
    rw [Option.map_eq_none']
    rw [List.find?_eq_none]
    intro x hx
    have hx2 := (List.mem_filter.mp hx).2
    simp only [bne_iff_ne, ne_eq] at hx2
    simp [hx2]
  refine ⟨?_, hnone, ?_⟩
  · unfold deleteTask
    rw [if_neg (by simp [hv]), ht]
  · unfold deleteTask
    rw [if_neg (by simp [hv]), hnone]

/-- Concrete instance of claim C7 on the example store. -/
theorem claim_C7_witness :
    deleteTask exTaskId exStore
      = (⟨200, .deletedB "Task deleted successfully" exTask⟩,
         removeTask exStore exTaskId) ∧
    findTask (removeTask exStore exTaskId) exTaskId = none ∧
    deleteTask exTaskId (removeTask exStore exTaskId)
      = (⟨404, .errB "Task not found" "Task not found"⟩,
         removeTask exStore exTaskId) :=
  claim_C7_delete_twice exStore exTaskId exTask (by decide) (by decide)

/-- Claim C8: creating a task whose title trims to the empty string
(e.g. whitespace-only) returns 400 with category exactly
`"Validation error"` and leaves the store unchanged. -/
theorem claim_C8_blank_title_create (s : String) (c : JSVal) (i : String)
    (sv : Except JsError Unit) (st : Store) (h : jsTrimStr s = "") :
    createTask ⟨.strV s, c⟩ i sv st
      = (⟨400, .errB "Validation error" "Title is required"⟩, st) ∧
    (createTask ⟨.strV s, c⟩ i sv st).1.errCategory = some "Validation error" ∧
    (createTask ⟨.strV s, c⟩ i sv st).2 = st := by
  have h400 : createTask ⟨JSVal.strV s, c⟩ i sv st
      = (⟨400, .errB "Validation error" "Title is required"⟩, st) := by
    by_cases hs : s = ""
    · subst hs
      rfl
    · unfold createTask
      simp [truthy, hs, jsTrim, h]
  exact ⟨h400, by rw [h400]; rfl, by rw [h400]⟩

/-- Concrete instance of claim C8 with title `"   "`. -/
theorem claim_C8_witness :
    createTask ⟨.strV "   ", .undef⟩ "t9" (.ok ()) exStore
      = (⟨400, .errB "Validation error" "Title is required"⟩, exStore) ∧
    (createTask ⟨.strV "   ", .undef⟩ "t9" (.ok ()) exStore).1.errCategory
      = some "Validation error" ∧
    (createTask ⟨.strV "   ", .undef⟩ "t9" (.ok ()) exStore).2 = exStore :=
  claim_C8_blank_title_create "   " JSVal.undef "t9" (.ok ()) exStore (by decide)

/-- Claim C9: a present non-string `title` (null in an update body, a
truthy number in a create body) makes the trim call throw a `TypeError`,
so the request falls into the catch block and returns 500 with category
`"Server error"`, not a 400 validation error, leaving the store
unchanged. -/
theorem claim_C9_nonstring_title (i : String) (st : Store) (b : TaskBody)
    (n : Int) (c : JSVal) (i2 : String) (sv : Except JsError Unit) :
    (isValidObjectId i = true → b.title = .nullV →
        (updateTask i b st).1 = catchErr trimTypeErr ∧
        (updateTask i b st).2 = st) ∧
    (n ≠ 0 →
        (createTask ⟨.numV n, c⟩ i2 sv st).1 = catchErr trimTypeErr ∧
        (createTask ⟨.numV n, c⟩ i2 sv st).2 = st) ∧
    (catchErr trimTypeErr).status = 500 ∧
    (catchErr trimTypeErr).errCategory = some "Server error" := by
  refine ⟨?_, ?_, by decide, by decide⟩
  · intro hv hb
    unfold updateTask
    rw [hb, if_neg (by simp [hv])]
    exact ⟨rfl, rfl⟩
  · intro hn
    unfold createTask
    rw [if_neg (by simp [truthy, hn])]
    exact ⟨rfl, rfl⟩

/-- Concrete instance of claim C9: null title in an update, numeric title
in a create. -/
theorem claim_C9_witness :
    ((updateTask exTaskId ⟨.nullV, .undef⟩ exStore).1 = catchErr trimTypeErr ∧
     (updateTask exTaskId ⟨.nullV, .undef⟩ exStore).2 = exStore) ∧
    ((createTask ⟨.numV 5, .undef⟩ "t1" (.ok ()) exStore).1 = catchErr trimTypeErr ∧
     (createTask ⟨.numV 5, .undef⟩ "t1" (.ok ()) exStore).2 = exStore) ∧
    (catchErr trimTypeErr).status = 500 :=
  ⟨(claim_C9_nonstring_title exTaskId exStore ⟨JSVal.nullV, JSVal.undef⟩ 5
      JSVal.undef "t1" (.ok ())).1 (by decide) rfl,
   (claim_C9_nonstring_title exTaskId exStore ⟨JSVal.nullV, JSVal.undef⟩ 5
      JSVal.undef "t1" (.ok ())).2.1 (by decide),
   (claim_C9_nonstring_title exTaskId exStore ⟨JSVal.nullV, JSVal.undef⟩ 5
      JSVal.undef "t1" (.ok ())).2.2.1⟩

/-- Claim C10: creating a session with `duration` present but equal to 0
returns 400 with message "Duration is required": the required-field check
tests JavaScript falsiness, and 0 is falsy. -/
theorem claim_C10_zero_duration (b : SessionBody) (i : String)
    (sv : Except JsError Unit) (st : Store)
    (h1 : truthy b.taskId = true) (h2 : b.duration = .numV 0) :
    createSession b i sv st
      = (⟨400, .errB "Validation error" "Duration is required"⟩, st) := by
  unfold createSession
  rw [if_neg (by simp [h1]), if_pos (by simp [h2, truthy])]

/-- Concrete instance of claim C10: duration 0 with an existing task
id. -/
theorem claim_C10_witness :
    createSession ⟨.strV exTaskId, .numV 0, .strV "2024-01-01T00:00:00Z", .undef⟩
        "s1" (.ok ()) exStore
      = (⟨400, .errB "Validation error" "Duration is required"⟩, exStore) :=
  claim_C10_zero_duration
    ⟨JSVal.strV exTaskId, JSVal.numV 0, JSVal.strV "2024-01-01T00:00:00Z", JSVal.undef⟩
    "s1" (.ok ()) exStore (by decide) rfl

/-- A concrete session-creation body referencing the example task. -/
def exSessionBody : SessionBody :=
  ⟨.strV exTaskId, .numV 25, .strV "2024-01-01T00:00:00Z", .undef⟩

/-- A schema-validation failure as the store reports it on save. -/
def exValErr : JsError := ⟨"ValidationError", "Session validation failed"⟩

/-- Claim C1 (counterexample): with all request-level checks passing and
the store reporting a schema-validation failure on saving the Session,
the handler responds 400, not 500 — the catch block maps a
`ValidationError` to 400. -/
theorem claim_C1_counterexample :
    (createSession exSessionBody "bbbbbbbbbbbbbbbbbbbbbbbb"
        (.error exValErr) exStore).1.status = 400 ∧
    ¬ (createSession exSessionBody "bbbbbbbbbbbbbbbbbbbbbbbb"
        (.error exValErr) exStore).1.status = 500 := by
  decide

/-- Claim C1 (amended): for Create Session, a save failure the store
reports as a schema-validation failure yields 400 with category
`"Validation error"`; only a save failure that is not a validation
failure yields 500; a missing required field, a malformed `taskId`, or an
absent referenced Task each yield 400.  In every failure case the store
is unchanged. -/
theorem claim_C1_session_error_mapping (body : SessionBody) (i : String)
    (st : Store) (e : JsError) (sv : Except JsError Unit) :
    (truthy body.taskId = true → truthy body.duration = true →
     truthy body.startTime = true → jsIsValidId body.taskId = true →
     (jsFindTask st body.taskId).isSome = true →
        (e.name = "ValidationError" →
           createSession body i (.error e) st
             = (⟨400, .errB "Validation error" e.message⟩, st)) ∧
        (e.name ≠ "ValidationError" →
           createSession body i (.error e) st
             = (⟨500, .errB "Server error" e.message⟩, st))) ∧
    (truthy body.taskId = false →
        createSession body i sv st
          = (⟨400, .errB "Validation error" "Task ID is required"⟩, st)) ∧
    (truthy body.taskId = true → truthy body.duration = false →
        createSession body i sv st
          = (⟨400, .errB "Validation error" "Duration is required"⟩, st)) ∧
    (truthy body.taskId = true → truthy body.duration = true →
     truthy body.startTime = false →
        createSession body i sv st
          = (⟨400, .errB "Validation error" "Start time is required"⟩, st)) ∧
    (truthy body.taskId = true → truthy body.duration = true →
     truthy body.startTime = true → jsIsValidId body.taskId = false →
        createSession body i sv st
          = (⟨400, .errB "Validation error" "Invalid task ID format"⟩, st)) ∧
    (truthy body.taskId = true → truthy body.duration = true →
     truthy body.startTime = true → jsIsValidId body.taskId = true →
     jsFindTask st body.taskId = none →
        createSession body i sv st
          = (⟨400, .errB "Validation error"
              ("Task with ID " ++ jsShow body.taskId ++ " does not exist")⟩,
             st)) := by
  refine ⟨?_, ?_, ?_, ?_, ?_, ?_⟩
  · intro h1 h2 h3 h4 h5
    obtain ⟨t, ht⟩ := Option.isSome_iff_exists.mp h5
    unfold createSession
    rw [if_neg (by simp [h1]), if_neg (by simp [h2]), if_neg (by simp [h3]),
        if_neg (by simp [h4]), ht]
    constructor
    · intro he
      simp [catchErr, he]
    · intro he
      simp [catchErr, he]
  · intro h1
    unfold createSession
    rw [if_pos (by simp [h1])]
  · intro h1 h2
    unfold createSession
    rw [if_neg (by simp [h1]), if_pos (by simp [h2])]
  · intro h1 h2 h3
    unfold createSession
    rw [if_neg (by simp [h1]), if_neg (by simp [h2]), if_pos (by simp [h3])]
  · intro h1 h2 h3 h4
    unfold createSession
    rw [if_neg (by simp [h1]), if_neg (by simp [h2]), if_neg (by simp [h3]),
        if_pos (by simp [h4])]
  · intro h1 h2 h3 h4 h5
    unfold createSession
    rw [if_neg (by simp [h1]), if_neg (by simp [h2]), if_neg (by simp [h3]),
        if_neg (by simp [h4]), h5]

/-- Concrete instances of amended claim C1: a reported schema-validation
failure yields 400 with the error message passed through, a
non-validation store error yields 500, and an absent referenced task
yields 400. -/
theorem claim_C1_witness :
    createSession exSessionBody "cccccccccccccccccccccccc"
        (.error exValErr) exStore
      = (⟨400, .errB "Validation error" "Session validation failed"⟩, exStore) ∧
    createSession exSessionBody "cccccccccccccccccccccccc"
        (.error ⟨"MongoNetworkError", "connection lost"⟩) exStore
      = (⟨500, .errB "Server error" "connection lost"⟩, exStore) ∧
    createSession ⟨.strV "dddddddddddddddddddddddd", .numV 25,
          .strV "2024-01-01T00:00:00Z", .undef⟩ "s1" (.ok ()) exStore
      = (⟨400, .errB "Validation error"
          ("Task with ID " ++ jsShow (.strV "dddddddddddddddddddddddd")
            ++ " does not exist")⟩, exStore) :=
  ⟨((claim_C1_session_error_mapping exSessionBody "cccccccccccccccccccccccc"
        exStore exValErr (.ok ())).1
      (by decide) (by decide) (by decide) (by decide) (by decide)).1 rfl,
   ((claim_C1_session_error_mapping exSessionBody "cccccccccccccccccccccccc"
        exStore ⟨"MongoNetworkError", "connection lost"⟩ (.ok ())).1
      (by decide) (by decide) (by decide) (by decide) (by decide)).2 (by decide),
   (claim_C1_session_error_mapping
      ⟨JSVal.strV "dddddddddddddddddddddddd", JSVal.numV 25,
        JSVal.strV "2024-01-01T00:00:00Z", JSVal.undef⟩ "s1" exStore
      ⟨"MongoNetworkError", "connection lost"⟩ (.ok ())).2.2.2.2.2
      (by decide) (by decide) (by decide) (by decide) (by decide)⟩
